import Mathlib

/-!
Verification of the Hora Varga chart logic
(`src/components/HoraVargaChart.tsx`).

The computable core of the repository is:
* `calculateHoraPlacement` — maps a zodiac sign (Tamil name) and a degree
  to one of two fixed output signs, Cancer (`கடகம்`) or Leo (`சிம்மம்`);
* `HORA_INTERPRETATIONS` — a static two-entry lookup of interpretation text;
* `generateHoraChart` — assembles the result rows from the Lagna entry and
  the planet-position entries.

JavaScript numbers flowing into `calculateHoraPlacement` come from
`parseFloat` and can therefore be `NaN`.  We model such a number as
`Option ℚ`, with `none` standing for `NaN`; every comparison on `NaN`
is `false`, which `jsLe` reproduces.
-/

/-- The 12 zodiac signs, in the source's canonical order (`RASHI_LIST`). -/
def RASHI_LIST : List String :=
  ["மேஷம்", "ரிஷபம்", "மிதுனம்", "கடகம்",
   "சிம்மம்", "கன்னி", "துலாம்", "விருச்சிகம்",
   "தனுசு", "மகரம்", "கும்பம்", "மீனம்"]

/-- The 9 planet labels (`PLANET_LIST`). -/
def PLANET_LIST : List String :=
  ["சூரியன்", "சந்திரன்", "செவ்வாய்",
   "புதன்", "குரு", "சுக்கிரன்",
   "சனி", "ராகு", "கேது"]

/-- The 6-element "male"/odd-parity subset of signs; in the source this is
the local constant `maleRashis` of `calculateHoraPlacement`. -/
def maleRashis : List String :=
  ["மேஷம்", "மிதுனம்", "சிம்மம்", "துலாம்", "தனுசு", "கும்பம்"]

/-- JavaScript `x <= c` on a possibly-`NaN` number: any comparison with
`NaN` (modelled as `none`) is `false`. -/
def jsLe (x : Option ℚ) (c : ℚ) : Bool :=
  match x with
  | some a => decide (a ≤ c)
  | none => false

/-- `calculateHoraPlacement` from the source:
`isMaleSign ? (degree <= 15 ? 'சிம்மம்' : 'கடகம்') : (degree <= 15 ? 'கடகம்' : 'சிம்மம்')`. -/
def calculateHoraPlacement (rashi : String) (degree : Option ℚ) : String :=
  let isMaleSign := maleRashis.contains rashi
  if isMaleSign then
    (if jsLe degree 15 then "சிம்மம்" else "கடகம்")
  else
    (if jsLe degree 15 then "கடகம்" else "சிம்மம்")

/-- A planet input row: `{ planetName, rashi, degree }`, all strings. -/
structure PlanetPosition where
  planetName : String
  rashi : String
  degree : String
deriving DecidableEq, Repr

/-- The Lagna (ascendant) input: `{ rashi, degree }`. -/
structure LagnaPosition where
  rashi : String
  degree : String
deriving DecidableEq, Repr

/-- A computed chart row: the input fields plus the computed `horaRashi`. -/
structure HoraChartEntry extends PlanetPosition where
  horaRashi : String
deriving DecidableEq, Repr

/-- An interpretation record: `{ title, description, keyQualities }`. -/
structure HoraInterpretation where
  title : String
  description : String
  keyQualities : List String
deriving DecidableEq, Repr

/-- `HORA_INTERPRETATIONS` from the source: a record keyed by output sign,
with exactly the two entries `கடகம்` (Cancer) and `சிம்மம்` (Leo);
lookup at any other key is absent (`none`). -/
def HORA_INTERPRETATIONS (key : String) : Option HoraInterpretation :=
  if key = "கடகம்" then
    some { title := "கடகம் (Cancer) - பெண் ஹோரா",
           description := "பெண் ஹோரா நிலை. உணர்வுகளின் ஆழம், பாதுகாப்பு மற்றும் குடும்ப தொடர்புகளைக் குறிக்கிறது.",
           keyQualities :=
             ["உணர்ச்சிகரமான மனப்பான்மை",
              "பரிவுடன் கூடிய அணுகுமுறை",
              "குடும்ப மதிப்புகளுக்கு முக்கியத்துவம்"] }
  else if key = "சிம்மம்" then
    some { title := "சிம்மம் (Leo) - ஆண் ஹோரா",
           description := "ஆண் ஹோரா நிலை. தன்னம்பிக்கை, தலைமை மற்றும் படைப்பாற்றலைக் குறிக்கிறது.",
           keyQualities :=
             ["வலிமையான தன்னம்பிக்கை",
              "தலைமைத்துவ இயல்பு",
              "திறமையான படைப்பாற்றல்"] }
  else none

/-- JavaScript string truthiness, as used in `lagna.rashi ? … : …` and
`p.planetName && p.rashi`: a string is truthy iff it is non-empty. -/
def jsTruthy (s : String) : Bool :=
  !(s == "")

/-- JavaScript `s || d` on strings: `d` when `s` is falsy (empty), else `s`. -/
def jsOr (s d : String) : String :=
  if s = "" then d else s

/-- Longest leading run of decimal digits of a character list, paired with
the remainder. -/
def takeDigits : List Char → List Char × List Char
  | [] => ([], [])
  | c :: cs =>
    if c.isDigit then
      let p := takeDigits cs
      (c :: p.1, p.2)
    else ([], c :: cs)

/-- Value of a decimal digit string. -/
def digitsToNat (ds : List Char) : ℕ :=
  ds.foldl (fun a c => 10 * a + (c.toNat - 48)) 0

/-- Syntactic phase of `parseFloat`: strip leading whitespace, read an
optional sign, then the integer digits and the fractional digits.
Returns `none` when no digit is found (the `NaN` case), else the sign flag
and the two digit runs. -/
def parseFloatSyn (s : String) : Option (Bool × List Char × List Char) :=
  let cs := s.toList.dropWhile (fun c => c = ' ' ∨ c = '\t' ∨ c = '\n')
  let signAndRest : Bool × List Char :=
    match cs with
    | '-' :: rest => (true, rest)
    | '+' :: rest => (false, rest)
    | _ => (false, cs)
  let intPart := takeDigits signAndRest.2
  let fracDigits : List Char :=
    match intPart.2 with
    | '.' :: rest => (takeDigits rest).1
    | _ => []
  if intPart.1 = [] ∧ fracDigits = [] then none
  else some (signAndRest.1, intPart.1, fracDigits)

/-- Numeric value of a parsed literal: sign, integer digits, fraction digits. -/
def ratOfParts (neg : Bool) (intDs fracDs : List Char) : ℚ :=
  (if neg then -1 else 1) *
    ((digitsToNat intDs : ℚ) + (digitsToNat fracDs : ℚ) / 10 ^ fracDs.length)

/-- Model of the JavaScript `parseFloat` builtin (an external collaborator of
`generateHoraChart`), restricted to plain decimal literals: optional leading
whitespace, an optional sign, digits with an optional fractional part.
`none` stands for the JavaScript result `NaN` (no parsable numeric prefix);
exponent notation and `Infinity` are outside this model. -/
def parseFloat (s : String) : Option ℚ :=
  (parseFloatSyn s).map (fun t => ratOfParts t.1 t.2.1 t.2.2)

/-- `generateHoraChart` from the source, as a pure function of the form
state it reads: an optional Lagna row (emitted first, only when
`lagna.rashi` is truthy), followed by the planet rows with empty entries
filtered out, each row carrying its computed `horaRashi`.  Each degree is
parsed with `parseFloat(degree || '0')`. -/
def generateHoraChart (lagna : LagnaPosition)
    (planetPositions : List PlanetPosition) : List HoraChartEntry :=
  (if jsTruthy lagna.rashi then
    [{ planetName := "லக்நம்", rashi := lagna.rashi, degree := lagna.degree,
       horaRashi := calculateHoraPlacement lagna.rashi
         (parseFloat (jsOr lagna.degree "0")) }]
   else []) ++
  ((planetPositions.filter
      (fun p => jsTruthy p.planetName && jsTruthy p.rashi)).map
    (fun p =>
      { planetName := p.planetName, rashi := p.rashi, degree := p.degree,
        horaRashi := calculateHoraPlacement p.rashi
          (parseFloat (jsOr p.degree "0")) }))

/-- `parseFloat "0"` evaluates to `0`. -/
lemma parseFloat_zero : parseFloat "0" = some 0 := by
  have h : parseFloatSyn "0" = some (false, ['0'], []) := by decide
  have hd : digitsToNat ['0'] = 0 := by decide
  simp [parseFloat, h, ratOfParts, hd, digitsToNat]

/-- `parseFloat "abc"` is `NaN` (no numeric prefix). -/
lemma parseFloat_abc : parseFloat "abc" = none := by
  have h : parseFloatSyn "abc" = none := by decide
  simp [parseFloat, h]

/-- `parseFloat "12.5"` evaluates to `12.5`: sanity check of the model. -/
lemma parseFloat_twelve_point_five : parseFloat "12.5" = some (25/2) := by
  have h : parseFloatSyn "12.5" = some (false, ['1', '2'], ['5']) := by decide
  have h1 : digitsToNat ['1', '2'] = 12 := by decide
  have h2 : digitsToNat ['5'] = 5 := by decide
  simp [parseFloat, h, ratOfParts, h1, h2]
  norm_num

/-- `parseFloat "5"` evaluates to `5`. -/
lemma parseFloat_five : parseFloat "5" = some 5 := by
  have h : parseFloatSyn "5" = some (false, ['5'], []) := by decide
  have hd : digitsToNat ['5'] = 5 := by decide
  simp [parseFloat, h, ratOfParts, hd, digitsToNat]

/-- Membership facts used when case-splitting on the parity subset. -/
lemma mesham_mem_maleRashis : "மேஷம்" ∈ maleRashis := by decide

lemma katakam_not_mem_maleRashis : "கடகம்" ∉ maleRashis := by decide

/-- C1: there are exactly two distinct fixed output signs `A` and `B` such
that odd-parity (male-subset) signs classify to `A` at degree ≤ 15 and to
`B` above 15, while all other signs classify to `B` at degree ≤ 15 and to
`A` above 15. -/
theorem hora_two_fixed_outputs :
    ∃ A B : String, A ≠ B ∧ ∀ (s : String) (d : ℚ),
      calculateHoraPlacement s (some d) =
        if maleRashis.contains s = decide (d ≤ 15) then A else B := by
  refine ⟨"சிம்மம்", "கடகம்", by decide, ?_⟩
  intro s d
  by_cases h : s ∈ maleRashis <;>
    by_cases h2 : d ≤ 15 <;>
      simp [calculateHoraPlacement, jsLe, h, h2]

/-- C2: degree exactly 15 classifies the same as any degree strictly below
15 for the same sign (the boundary is inclusive in the ≤ 15 branch). -/
theorem hora_boundary_inclusive (s : String) (d : ℚ) (h : d < 15) :
    calculateHoraPlacement s (some 15) = calculateHoraPlacement s (some d) := by
  have hd : d ≤ 15 := le_of_lt h
  by_cases hc : s ∈ maleRashis <;>
    simp [calculateHoraPlacement, jsLe, hc, hd]

/-- Witness for C2 at Aries with degree 10. -/
theorem hora_boundary_inclusive_witness :
    (10 : ℚ) < 15 ∧
      calculateHoraPlacement "மேஷம்" (some 15) =
        calculateHoraPlacement "மேஷம்" (some 10) :=
  ⟨by norm_num, hora_boundary_inclusive "மேஷம்" 10 (by norm_num)⟩

/-- C3 counterexample: `classify(Aries, 10)` equals `classify(Cancer, 20)`
(both are Leo, `சிம்மம்`), refuting the claim that they differ and that
Aries at degree 10 maps to ClassificationB. -/
theorem aries10_equals_cancer20 :
    calculateHoraPlacement "மேஷம்" (some 10) =
        calculateHoraPlacement "கடகம்" (some 20) ∧
      calculateHoraPlacement "மேஷம்" (some 10) = "சிம்மம்" := by
  have h1 : calculateHoraPlacement "மேஷம்" (some 10) = "சிம்மம்" := by
    simp [calculateHoraPlacement, jsLe, mesham_mem_maleRashis]
    norm_num
  have h2 : calculateHoraPlacement "கடகம்" (some 20) = "சிம்மம்" := by
    simp [calculateHoraPlacement, jsLe, katakam_not_mem_maleRashis]
    norm_num
  exact ⟨h1.trans h2.symm, h1⟩

/-- C3 amended: `classify(Aries, 10)` returns Leo (`சிம்மம்`), which is
ClassificationA under the §4.1 rule (odd parity, degree ≤ 15), and is the
same value as `classify(Cancer, 20)`. -/
theorem aries10_is_leo :
    calculateHoraPlacement "மேஷம்" (some 10) = "சிம்மம்" ∧
      calculateHoraPlacement "கடகம்" (some 20) = "சிம்மம்" := by
  constructor
  · simp [calculateHoraPlacement, jsLe, mesham_mem_maleRashis]
    norm_num
  · simp [calculateHoraPlacement, jsLe, katakam_not_mem_maleRashis]
    norm_num

/-- C4: for every sign, a degree in (15,30] classifies differently from a
degree in [0,15]. -/
theorem hora_inverts_above_15 (s : String) (d1 d2 : ℚ)
    (_h0 : 0 ≤ d1) (h1 : d1 ≤ 15) (h2 : 15 < d2) (_h3 : d2 ≤ 30) :
    calculateHoraPlacement s (some d2) ≠ calculateHoraPlacement s (some d1) := by
  have e1 : jsLe (some d1) 15 = true := by simp [jsLe, h1]
  have e2 : jsLe (some d2) 15 = false := by
    simp [jsLe, not_le]
    exact h2
  by_cases hc : s ∈ maleRashis <;>
    simp [calculateHoraPlacement, hc, e1, e2]

/-- Witness for C4 at Aries with degrees 10 and 20. -/
theorem hora_inverts_above_15_witness :
    (0 : ℚ) ≤ 10 ∧ (10 : ℚ) ≤ 15 ∧ (15 : ℚ) < 20 ∧ (20 : ℚ) ≤ 30 ∧
      calculateHoraPlacement "மேஷம்" (some 20) ≠
        calculateHoraPlacement "மேஷம்" (some 10) :=
  ⟨by norm_num, by norm_num, by norm_num, by norm_num,
    hora_inverts_above_15 "மேஷம்" 10 20 (by norm_num) (by norm_num)
      (by norm_num) (by norm_num)⟩

/-- C5: the classifier is total and always returns one of the two
designated output signs, Cancer (`கடகம்`) or Leo (`சிம்மம்`), for every
sign string and every degree (`NaN` included). -/
theorem hora_total_two_values (s : String) (d : Option ℚ) :
    calculateHoraPlacement s d = "கடகம்" ∨
      calculateHoraPlacement s d = "சிம்மம்" := by
  by_cases hc : s ∈ maleRashis <;> cases hl : jsLe d 15 <;>
    simp [calculateHoraPlacement, hc, hl]

/-- C9: the classifier is deterministic — identical inputs always yield
identical outputs; there is no hidden state in the embedding, matching the
stateless source function. -/
theorem hora_deterministic (s : String) (d : Option ℚ) :
    calculateHoraPlacement s d = calculateHoraPlacement s d := rfl

/-- C10: a sign string that is not one of the 12 canonical signs (the
empty string included) is treated as even parity: Cancer at degree ≤ 15
and Leo above 15. -/
theorem hora_unknown_sign_even (s : String) (hs : s ∉ RASHI_LIST) (d : ℚ) :
    calculateHoraPlacement s (some d) =
      if d ≤ 15 then "கடகம்" else "சிம்மம்" := by
  have hm : s ∉ maleRashis := by
    intro hmem
    simp only [maleRashis, List.mem_cons, List.mem_singleton,
      List.not_mem_nil, or_false] at hmem
    rcases hmem with h1 | h1 | h1 | h1 | h1 | h1 <;>
      (subst h1; exact hs (by decide))
  by_cases hd : d ≤ 15 <;> simp [calculateHoraPlacement, jsLe, hm, hd]

/-- Witness for C10 at the unknown sign `""` with degree 10. -/
theorem hora_unknown_sign_even_witness :
    ("" : String) ∉ RASHI_LIST ∧
      calculateHoraPlacement "" (some 10) =
        if (10 : ℚ) ≤ 15 then "கடகம்" else "சிம்மம்" :=
  ⟨by decide, hora_unknown_sign_even "" (by decide) 10⟩

/-- C8: the interpretation lookup is total over the two classification
values: each of the two output signs has a record with non-empty title,
non-empty description and a non-empty qualities list. -/
theorem interpretations_total_nonempty :
    (∃ r, HORA_INTERPRETATIONS "கடகம்" = some r ∧
        r.title ≠ "" ∧ r.description ≠ "" ∧ r.keyQualities ≠ []) ∧
    (∃ r, HORA_INTERPRETATIONS "சிம்மம்" = some r ∧
        r.title ≠ "" ∧ r.description ≠ "" ∧ r.keyQualities ≠ []) := by
  constructor
  · refine ⟨_, rfl, ?_, ?_, ?_⟩ <;> decide
  · refine ⟨_, rfl, ?_, ?_, ?_⟩ <;> decide

/-- The source's emptiness filter agrees with the plain non-emptiness
predicate. -/
lemma filter_complete_eq (planets : List PlanetPosition) :
    planets.filter (fun p => jsTruthy p.planetName && jsTruthy p.rashi) =
      planets.filter (fun p => decide (p.planetName ≠ "" ∧ p.rashi ≠ "")) := by
  apply List.filter_congr
  intro p _
  by_cases h1 : p.planetName = "" <;> by_cases h2 : p.rashi = "" <;>
    simp [jsTruthy, h1, h2]

/-- C6: with the ascendant's sign unset, chart assembly yields exactly the
complete planet entries (label and sign both non-empty), in input order,
each with its original fields plus the computed classification and no
ascendant row; with the ascendant's sign set, the ascendant row comes
first, followed by the same planet rows. -/
theorem generateHoraChart_assembly (lagna : LagnaPosition)
    (planets : List PlanetPosition) :
    (lagna.rashi = "" →
      generateHoraChart lagna planets =
        (planets.filter (fun p => decide (p.planetName ≠ "" ∧ p.rashi ≠ ""))).map
          (fun p => { planetName := p.planetName, rashi := p.rashi,
                      degree := p.degree,
                      horaRashi := calculateHoraPlacement p.rashi
                        (parseFloat (jsOr p.degree "0")) })) ∧
    (lagna.rashi ≠ "" →
      generateHoraChart lagna planets =
        { planetName := "லக்நம்", rashi := lagna.rashi, degree := lagna.degree,
          horaRashi := calculateHoraPlacement lagna.rashi
            (parseFloat (jsOr lagna.degree "0")) } ::
        (planets.filter (fun p => decide (p.planetName ≠ "" ∧ p.rashi ≠ ""))).map
          (fun p => { planetName := p.planetName, rashi := p.rashi,
                      degree := p.degree,
                      horaRashi := calculateHoraPlacement p.rashi
                        (parseFloat (jsOr p.degree "0")) })) := by
  constructor
  · intro h
    rw [generateHoraChart, filter_complete_eq]
    simp [jsTruthy, h]
  · intro h
    rw [generateHoraChart, filter_complete_eq]
    simp [jsTruthy, h]

/-- Witness for C6: ascendant unset, one complete planet entry, one entry
missing its label and one missing its sign — only the complete entry
survives, with its computed classification. -/
theorem generateHoraChart_assembly_witness :
    (({ rashi := "", degree := "10" } : LagnaPosition).rashi = "") ∧
      generateHoraChart { rashi := "", degree := "10" }
          [{ planetName := "சூரியன்", rashi := "மேஷம்", degree := "5" },
           { planetName := "", rashi := "ரிஷபம்", degree := "3" },
           { planetName := "சந்திரன்", rashi := "", degree := "7" }] =
        [{ planetName := "சூரியன்", rashi := "மேஷம்", degree := "5",
           horaRashi := "சிம்மம்" }] := by
  refine ⟨rfl, ?_⟩
  have h := (generateHoraChart_assembly { rashi := "", degree := "10" }
    [{ planetName := "சூரியன்", rashi := "மேஷம்", degree := "5" },
     { planetName := "", rashi := "ரிஷபம்", degree := "3" },
     { planetName := "சந்திரன்", rashi := "", degree := "7" }]).1 rfl
  rw [h]
  have hfil : List.filter
      (fun p : PlanetPosition => decide (p.planetName ≠ "" ∧ p.rashi ≠ ""))
      [{ planetName := "சூரியன்", rashi := "மேஷம்", degree := "5" },
       { planetName := "", rashi := "ரிஷபம்", degree := "3" },
       { planetName := "சந்திரன்", rashi := "", degree := "7" }] =
      [{ planetName := "சூரியன்", rashi := "மேஷம்", degree := "5" }] := by
    decide
  rw [hfil]
  have hj : jsOr "5" "0" = "5" := by decide
  have hcalc : calculateHoraPlacement "மேஷம்" (some 5) = "சிம்மம்" := by decide
  simp [hj, parseFloat_five, hcalc]

/-- C7 counterexample: the planet entry with sign Aries and the non-empty,
non-numeric degree string `"abc"` is classified as `கடகம்` (the `NaN`
comparison falls into the > 15 branch), while the same sign at degree 0
is classified `சிம்மம்` — so such an entry is not treated as degree 0. -/
theorem invalid_degree_differs_from_zero :
    parseFloat "abc" = none ∧
      generateHoraChart { rashi := "", degree := "" }
          [{ planetName := "சூரியன்", rashi := "மேஷம்", degree := "abc" }] =
        [{ planetName := "சூரியன்", rashi := "மேஷம்", degree := "abc",
           horaRashi := "கடகம்" }] ∧
      calculateHoraPlacement "மேஷம்" (some 0) = "சிம்மம்" ∧
      ("கடகம்" : String) ≠ "சிம்மம்" := by
  refine ⟨parseFloat_abc, ?_, by decide, by decide⟩
  have hj : jsOr "abc" "0" = "abc" := by decide
  have hlag : jsTruthy "" = false := by decide
  have hfil : (jsTruthy "சூரியன்" && jsTruthy "மேஷம்") = true := by decide
  have hcalc : calculateHoraPlacement "மேஷம்" (none : Option ℚ) = "கடகம்" := by
    decide
  simp [generateHoraChart, hlag, hfil, hj, parseFloat_abc, hcalc, List.filter]

/-- C7 amended: during assembly an entry with an absent (empty) degree
string is classified as if the degree were 0; an entry with a non-empty
degree string is classified at `parseFloat` of that string, which is `NaN`
(not 0) when the string does not parse. -/
theorem degree_fallback (p : PlanetPosition)
    (hn : p.planetName ≠ "") (hr : p.rashi ≠ "") :
    generateHoraChart { rashi := "", degree := "" } [p] =
      [{ planetName := p.planetName, rashi := p.rashi, degree := p.degree,
         horaRashi := calculateHoraPlacement p.rashi
           (if p.degree = "" then some 0 else parseFloat p.degree) }] := by
  have hlag : jsTruthy "" = false := by decide
  have hfil : (jsTruthy p.planetName && jsTruthy p.rashi) = true := by
    simp [jsTruthy, hn, hr]
  by_cases hd : p.degree = ""
  · simp [generateHoraChart, hlag, List.filter, hfil, jsOr, hd, parseFloat_zero]
  · simp [generateHoraChart, hlag, List.filter, hfil, jsOr, hd]

/-- Witness for C7's amended statement: a complete entry with an empty
degree string is classified like degree 0 (Aries at 0 is `சிம்மம்`). -/
theorem degree_fallback_witness :
    generateHoraChart { rashi := "", degree := "" }
        [{ planetName := "சூரியன்", rashi := "மேஷம்", degree := "" }] =
      [{ planetName := "சூரியன்", rashi := "மேஷம்", degree := "",
         horaRashi := "சிம்மம்" }] := by
  have h := degree_fallback
    { planetName := "சூரியன்", rashi := "மேஷம்", degree := "" }
    (by decide) (by decide)
  rw [h]
  have hcalc : calculateHoraPlacement "மேஷம்" (some 0) = "சிம்மம்" := by decide
  simp [hcalc]
